import Mathlib

/-!
# MCTP over PCIe VDM binding: the private header `astpcie.h`

A shallow embedding of the structures, constants and function-like macros of
`astpcie.h`, and theorems about the length / padding arithmetic and the bit
layout of the PCIe medium specific header.

Conventions of the embedding:

* `size_t` is an unsigned integer of `w` value bits; `w` is a parameter of every
  operation whose result is a `size_t`, and arithmetic on `size_t` is written
  with an explicit reduction modulo `2 ^ w`. The C standard guarantees
  `16 ≤ w`; the usual targets have `w = 32` or `w = 64`.
* `uint8_t` and `uint16_t` fields are natural numbers; `pcie_header.wf` says
  that each field is within the range of its C type.
* both structures are `__attribute__((packed))`, so a field sits at the sum of
  the sizes of the fields declared before it.
* the decoder of the binding is not part of `astpcie.h`; `decode` follows the
  description of the header codec in the specification.
-/

namespace Astpcie

/-! ## C integer arithmetic on `size_t` -/

/-- Conversion of a non-negative integer value to a `size_t` of `w` bits. -/
def to_size_t (w x : Nat) : Nat := x % 2 ^ w

/-- Unary minus on a `size_t` of `w` bits: the negation is taken modulo `2 ^ w`. -/
def size_neg (w x : Nat) : Nat := (2 ^ w - x % 2 ^ w) % 2 ^ w

/-- Addition on a `size_t` of `w` bits: the sum wraps modulo `2 ^ w`. -/
def size_add (w a b : Nat) : Nat := (a + b) % 2 ^ w

/-- Subtraction on a `size_t` of `w` bits: the difference wraps modulo `2 ^ w`. -/
def size_sub (w a b : Nat) : Nat := (a % 2 ^ w + (2 ^ w - b % 2 ^ w)) % 2 ^ w

/-- Multiplication on a `size_t` of `w` bits: the product wraps modulo `2 ^ w`. -/
def size_mul (w a b : Nat) : Nat := (a * b) % 2 ^ w

/-- Modelled from the spec: `CHAR_BIT` comes from `<limits.h>`, which is not part
of the repository; the spec describes the shift of the two high length bits as
"shifted left by 8". -/
def CHAR_BIT : Nat := 8

/-- The C scalar types used by the two header structures. -/
inductive CType where
  | uint8_t
  | uint16_t
  | uint32_t
  deriving DecidableEq, Repr

/-- The value of `sizeof` on a scalar type. -/
def CType.sizeof : CType → Nat
  | .uint8_t => 1
  | .uint16_t => 2
  | .uint32_t => 4

/-! ## Constants of `astpcie.h` -/

def MCTP_ASTPCIE_BINDING_DEFAULT_BUFFER : Nat := 1024

def MSG_4DW_HDR : Nat := 0x70
def MCTP_PCIE_VDM_ATTR : Nat := 0x0010
def MSG_CODE_VDM_TYPE_1 : Nat := 0x7f
def VENDOR_ID_DMTF_VDM : Nat := 0xb41a

def PCIE_FTR_FMT_SHIFT : Nat := 5
def PCIE_FTR_FMT_MASK : Nat := 0x3
def PCIE_FTR_TYPE_SHIFT : Nat := 0
def PCIE_FTR_TYPE_MASK : Nat := 0x3
def PCIE_FTR_ROUTING_SHIFT : Nat := 0
def PCIE_FTR_ROUTING_MASK : Nat := 0x7

def PCIE_TR_TRCL_SHIFT : Nat := 4
def PCIE_TR_TRCL_MASK : Nat := 0x7
def PCIE_TR_FLAG_ATTR : Nat := 1 <<< 2
def PCIE_TR_FLAG_TH : Nat := 1 <<< 0

def PCIE_TEARL_MASK_TD : Nat := 0x1
def PCIE_TEARL_SHIFT_TD : Nat := 7
def PCIE_TEARL_FLAG_TD : Nat := 1 <<< 7
def PCIE_TEARL_MASK_EP : Nat := 0x1
def PCIE_TEARL_SHIFT_EP : Nat := 6
def PCIE_TEARL_FLAG_EP : Nat := 1 <<< 6
def PCIE_TEARL_ATTR_SHIFT : Nat := 4
def PCIE_TEARL_ATTR_MASK : Nat := 0x30
def PCIE_TEARL_LEN1_SHIFT : Nat := 0
def PCIE_TEARL_LEN1_MASK : Nat := 0x3

def PCIE_PCITAG_PADLEN_SHIFT : Nat := 4
def PCIE_PCITAG_PADLEN_MASK : Nat := 0x3
def PCIE_PCITAG_MVC_SHIFT : Nat := 0
def PCIE_PCITAG_MVC_MASK : Nat := 0xf
def PCIE_PCITAG_MVC_VALUE : Nat := 0x0

/-! ## `struct pcie_header` -/

/-- The PCIe medium specific header, `struct pcie_header`; the fields are in
declaration order. -/
structure pcie_header where
  r_fmt_type_rout : Nat
  r_trcl_r : Nat
  td_ep_attr_r_l1 : Nat
  len2 : Nat
  pci_requester_id : Nat
  pcitag : Nat
  message_code : Nat
  pci_target_id : Nat
  vendor_id : Nat
  deriving DecidableEq, Repr

/-- Every field of the header holds a value of its C type: `uint8_t` fields are
below `2 ^ 8`, `uint16_t` fields below `2 ^ 16`. -/
def pcie_header.wf (h : pcie_header) : Prop :=
  h.r_fmt_type_rout < 256 ∧ h.r_trcl_r < 256 ∧ h.td_ep_attr_r_l1 < 256 ∧
  h.len2 < 256 ∧ h.pci_requester_id < 65536 ∧ h.pcitag < 256 ∧
  h.message_code < 256 ∧ h.pci_target_id < 65536 ∧ h.vendor_id < 65536

instance (h : pcie_header) : Decidable h.wf := by
  unfold pcie_header.wf; infer_instance

/-! ## The function-like macros -/

/-- The macro `PCIE_GET_LEN(header)`: the length from the header fields. -/
def PCIE_GET_LEN (w : Nat) (header : pcie_header) : Nat :=
  to_size_t w
    (((header.td_ep_attr_r_l1 &&& PCIE_TEARL_LEN1_MASK) <<< CHAR_BIT) ||| header.len2)

/-- The macro `PCIE_GET_PAD(header)`: the padding from the header. -/
def PCIE_GET_PAD (w : Nat) (header : pcie_header) : Nat :=
  to_size_t w ((header.pcitag >>> PCIE_PCITAG_PADLEN_SHIFT) &&& PCIE_PCITAG_PADLEN_MASK)

/-- The macro `PCIE_COUNT_PAD(len)` applied to a `size_t` variable `len`:
`((-len) & (sizeof(uint32_t) - 1))`. -/
def PCIE_COUNT_PAD (w len : Nat) : Nat :=
  (size_neg w len) &&& (CType.uint32_t.sizeof - 1)

/-! ## Packed layout of the two header structures -/

/-- The fields of `struct pcie_header`, in declaration order. -/
inductive pcie_header_field where
  | r_fmt_type_rout
  | r_trcl_r
  | td_ep_attr_r_l1
  | len2
  | pci_requester_id
  | pcitag
  | message_code
  | pci_target_id
  | vendor_id
  deriving DecidableEq, Repr

/-- The fields of `struct mctp_pcie_hdr`, in declaration order. -/
inductive mctp_pcie_hdr_field where
  | fmt_type
  | mbz
  | mbz_attr_length
  | requester
  | tag
  | code
  | target
  | vendor
  deriving DecidableEq, Repr

/-- The member declarations of `struct pcie_header`. -/
def pcie_header_decl : List (pcie_header_field × CType) :=
  [ (.r_fmt_type_rout, .uint8_t),
    (.r_trcl_r, .uint8_t),
    (.td_ep_attr_r_l1, .uint8_t),
    (.len2, .uint8_t),
    (.pci_requester_id, .uint16_t),
    (.pcitag, .uint8_t),
    (.message_code, .uint8_t),
    (.pci_target_id, .uint16_t),
    (.vendor_id, .uint16_t) ]

/-- The member declarations of `struct mctp_pcie_hdr`. -/
def mctp_pcie_hdr_decl : List (mctp_pcie_hdr_field × CType) :=
  [ (.fmt_type, .uint8_t),
    (.mbz, .uint8_t),
    (.mbz_attr_length, .uint16_t),
    (.requester, .uint16_t),
    (.tag, .uint8_t),
    (.code, .uint8_t),
    (.target, .uint16_t),
    (.vendor, .uint16_t) ]

/-- The value of `sizeof` on a packed structure: no padding is inserted, so it is
the sum of the sizes of the members. -/
def packed_sizeof {α : Type} (decl : List (α × CType)) : Nat :=
  (decl.map (fun m => m.2.sizeof)).sum

/-- The value of `offsetof` on a packed structure: the sum of the sizes of the
members declared before the named one; `none` when there is no such member. -/
def packed_offsetof {α : Type} [DecidableEq α] : List (α × CType) → α → Option Nat
  | [], _ => none
  | (name, ty) :: rest, member =>
      if name = member then some 0
      else (packed_offsetof rest member).map (fun off => ty.sizeof + off)

/-- The bytes occupied by a member of a packed structure: first and last offset. -/
def packed_span {α : Type} [DecidableEq α] (decl : List (α × CType)) (member : α) :
    Option (Nat × Nat) :=
  match packed_offsetof decl member, decl.lookup member with
  | some off, some ty => some (off, off + ty.sizeof - 1)
  | _, _ => none

/-- The macro `PCIE_MCTP_HDR_OFFSET`: `(sizeof(struct pcie_header))`. -/
def PCIE_MCTP_HDR_OFFSET : Nat := packed_sizeof pcie_header_decl

/-- The object representation of a `uint8_t`. -/
def store_u8 (v : Nat) : List Nat := [v % 256]

/-- The object representation of a `uint16_t` on a little-endian host: the least
significant byte is at the lower address. -/
def store_le16 (v : Nat) : List Nat := [v % 256, v / 256 % 256]

/-- The value of two consecutive bytes read most significant byte first. -/
def read_be16 (b0 b1 : Nat) : Nat := b0 * 256 + b1

/-- The 16-bit byte swap. -/
def bswap16 (v : Nat) : Nat := (v % 256) * 256 + v / 256 % 256

/-- The object representation of a `struct pcie_header` on a little-endian host:
the members in declaration order, without padding. -/
def pcie_header.to_bytes (h : pcie_header) : List Nat :=
  store_u8 h.r_fmt_type_rout ++ store_u8 h.r_trcl_r ++ store_u8 h.td_ep_attr_r_l1 ++
  store_u8 h.len2 ++ store_le16 h.pci_requester_id ++ store_u8 h.pcitag ++
  store_u8 h.message_code ++ store_le16 h.pci_target_id ++ store_le16 h.vendor_id

/-! ## The pad macro on an unparenthesised sum -/

/-- The macro `PCIE_COUNT_PAD(len)` invoked with the expression text `a + b` as its
argument. The body `((-len) & (sizeof(uint32_t) - 1))` does not parenthesise the
parameter, so the expansion is `((-a + b) & (sizeof(uint32_t) - 1))`, in which the
unary minus applies to `a` alone. -/
def PCIE_COUNT_PAD_of_sum (w a b : Nat) : Nat :=
  (size_add w (size_neg w a) b) &&& (CType.uint32_t.sizeof - 1)

/-! ## `struct mctp_pcie_hdr` and the two views of the header bytes -/

/-- The alternative view of the header, `struct mctp_pcie_hdr`; the fields are in
declaration order. -/
structure mctp_pcie_hdr where
  fmt_type : Nat
  mbz : Nat
  mbz_attr_length : Nat
  requester : Nat
  tag : Nat
  code : Nat
  target : Nat
  vendor : Nat
  deriving DecidableEq, Repr

/-- The object representation of a `struct mctp_pcie_hdr` on a little-endian host:
the members in declaration order, without padding. -/
def mctp_pcie_hdr.to_bytes (m : mctp_pcie_hdr) : List Nat :=
  store_u8 m.fmt_type ++ store_u8 m.mbz ++ store_le16 m.mbz_attr_length ++
  store_le16 m.requester ++ store_u8 m.tag ++ store_u8 m.code ++
  store_le16 m.target ++ store_le16 m.vendor

/-- The value of a `uint16_t` whose object representation on a little-endian host
is the two bytes `b0`, `b1`. -/
def load_le16 (b0 b1 : Nat) : Nat := b0 + b1 * 256

/-- Reading the first `sizeof(struct pcie_header)` bytes of a buffer through a
`struct pcie_header *` on a little-endian host; `none` when the buffer is shorter
than the structure. -/
def pcie_header.of_bytes : List Nat → Option pcie_header
  | b0 :: b1 :: b2 :: b3 :: b4 :: b5 :: b6 :: b7 :: b8 :: b9 :: b10 :: b11 :: _ =>
      some (pcie_header.mk b0 b1 b2 b3 (load_le16 b4 b5) b6 b7 (load_le16 b8 b9)
        (load_le16 b10 b11))
  | _ => none

/-! ## The header decoder -/

/-- Modelled from the spec: the error kinds of the decoder (sections 4.1 and 7);
the decoder is not part of `astpcie.h`. `MalformedFrame` identifies the field that
failed. -/
inductive DecodeError where
  | TruncatedFrame
  | MalformedFrame (field : pcie_header_field)
  deriving DecidableEq, Repr

/-- Modelled from the spec: the Frame Descriptor of section 3, the decoded view of
one PCIe VDM frame; it is not part of `astpcie.h`. -/
structure frame_descriptor where
  format_type : Nat
  routing : Nat
  traffic_class : Nat
  attr : Nat
  length_dwords : Nat
  requester_id : Nat
  target_id : Nat
  tag : Nat
  message_code : Nat
  vendor_id : Nat
  pad_len : Nat
  deriving DecidableEq, Repr

/-- Modelled from the spec: `decode` of section 4.1, which is not part of
`astpcie.h`. It validates every fixed field against its protocol constant, in the
order the spec lists them (format/type bits, attribute bits, TD/EP flags, message
code, vendor id); any mismatch is a `MalformedFrame` error identifying the field
that failed. Otherwise it extracts `length_dwords` and `pad_len` with
`PCIE_GET_LEN` and `PCIE_GET_PAD`. -/
def decode (w : Nat) (h : pcie_header) : Except DecodeError frame_descriptor :=
  if h.r_fmt_type_rout / 8 % 16 ≠ MSG_4DW_HDR / 8 % 16 then
    .error (.MalformedFrame .r_fmt_type_rout)
  else if h.td_ep_attr_r_l1 / 16 % 4 ≠ MCTP_PCIE_VDM_ATTR / 16 % 4 then
    .error (.MalformedFrame .td_ep_attr_r_l1)
  else if h.td_ep_attr_r_l1 / 64 % 4 ≠ 0 then
    .error (.MalformedFrame .td_ep_attr_r_l1)
  else if h.message_code ≠ MSG_CODE_VDM_TYPE_1 then
    .error (.MalformedFrame .message_code)
  else if h.vendor_id ≠ VENDOR_ID_DMTF_VDM then
    .error (.MalformedFrame .vendor_id)
  else
    .ok (frame_descriptor.mk (h.r_fmt_type_rout / 8 % 16) (h.r_fmt_type_rout % 8)
      (h.r_trcl_r / 16 % 8) (h.td_ep_attr_r_l1 / 16 % 4) (PCIE_GET_LEN w h)
      h.pci_requester_id h.pci_target_id h.pcitag h.message_code h.vendor_id
      (PCIE_GET_PAD w h))

/-! ## Sample values -/

/-- A header declaring 2 dwords and three bytes of padding (combined size 5), with
the TD, EP, Attr and reserved bits of byte 2 and the reserved bits of `pcitag`
set. -/
def round_trip_header : pcie_header :=
  pcie_header.mk 0x70 0 0xfc 2 0x0100 0xf5 0x7f 0x0200 0xb41a

/-- A header declaring `0x234` dwords: byte 2 carries `10b` in bits [1:0] below
set TD, EP, Attr and reserved bits, byte 3 is `0x34`. -/
def long_header : pcie_header :=
  pcie_header.mk 0x70 0 0xfe 0x34 0x0100 0x00 0x7f 0x0200 0xb41a

/-- A header whose `pcitag` holds pad length `10b` between set reserved bits [7:6]
and a non-zero code in bits [3:0]. -/
def padded_header : pcie_header :=
  pcie_header.mk 0x70 0 0x00 0x01 0x0100 0xe9 0x7f 0x0200 0xb41a

/-- A header whose `pcitag` is built the way the encoder does it, from pad length 3:
`(3 << PCIE_PCITAG_PADLEN_SHIFT) | PCIE_PCITAG_MVC_VALUE`. -/
def built_header : pcie_header :=
  pcie_header.mk 0x70 0 0x00 0x01 0x0100
    ((3 <<< PCIE_PCITAG_PADLEN_SHIFT) ||| PCIE_PCITAG_MVC_VALUE) 0x7f 0x0200 0xb41a

/-- A header declaring the largest length, 1023 dwords. -/
def full_header : pcie_header :=
  pcie_header.mk 0x70 0 0x03 0xff 0x0100 0x00 0x7f 0x0200 0xb41a

/-- A header with every fixed field at its protocol constant, declaring 253
dwords: the longest payload region that fits the default buffer. -/
def template_header : pcie_header :=
  pcie_header.mk 0x70 0 0x10 0xfd 0x0100 0x00 0x7f 0x0200 0xb41a

/-- The header `template_header` with only the vendor id altered, to the byte swap
of the constant. -/
def wrong_vendor_header : pcie_header :=
  pcie_header.mk 0x70 0 0x10 0xfd 0x0100 0x00 0x7f 0x0200 0x1ab4

/-! ## Helper lemmas -/

theorem four_dvd_two_pow {w : Nat} (hw : 2 ≤ w) : 4 ∣ 2 ^ w := by
  obtain ⟨k, rfl⟩ := Nat.exists_eq_add_of_le hw
  exact ⟨2 ^ k, by rw [Nat.pow_add]⟩

theorem two_pow_ge {w : Nat} (hw : 16 ≤ w) : 65536 ≤ 2 ^ w :=
  Nat.pow_le_pow_right (show 0 < 2 by decide) hw

theorem and_three (x : Nat) : x &&& 3 = x % 4 :=
  Nat.and_pow_two_sub_one_eq_mod x 2

theorem to_size_t_of_lt {w x : Nat} (h : x < 2 ^ w) : to_size_t w x = x :=
  Nat.mod_eq_of_lt h

theorem size_add_of_lt {w a b : Nat} (h : a + b < 2 ^ w) : size_add w a b = a + b :=
  Nat.mod_eq_of_lt h

theorem size_mul_of_lt {w a b : Nat} (h : a * b < 2 ^ w) : size_mul w a b = a * b :=
  Nat.mod_eq_of_lt h

theorem size_sub_of_le {w a b : Nat} (hab : b ≤ a) (ha : a < 2 ^ w) :
    size_sub w a b = a - b := by
  unfold size_sub
  rw [Nat.mod_eq_of_lt ha, Nat.mod_eq_of_lt (Nat.lt_of_le_of_lt hab ha)]
  have h1 : a + (2 ^ w - b) = (a - b) + 2 ^ w := by omega
  rw [h1, Nat.add_mod_right]
  exact Nat.mod_eq_of_lt (by omega)

theorem size_neg_mod_four {w : Nat} (hw : 2 ≤ w) (len : Nat) :
    size_neg w len % 4 = (4 - len % 4) % 4 := by
  unfold size_neg
  obtain ⟨k, hk⟩ := four_dvd_two_pow hw
  have hpos : 0 < 2 ^ w := Nat.two_pow_pos w
  have hlt : len % 2 ^ w < 2 ^ w := Nat.mod_lt _ hpos
  have hmm : len % 2 ^ w % 4 = len % 4 := Nat.mod_mod_of_dvd len ⟨k, hk⟩
  generalize len % 2 ^ w = m at hlt hmm
  generalize 2 ^ w = P at hk hpos hlt
  by_cases hm : m = 0
  · subst hm
    simp only [Nat.sub_zero, Nat.mod_self]
    omega
  · have hsub : (P - m) % P = P - m := Nat.mod_eq_of_lt (by omega)
    rw [hsub]
    omega

theorem count_pad_eq {w : Nat} (hw : 2 ≤ w) (len : Nat) :
    PCIE_COUNT_PAD w len = (4 - len % 4) % 4 := by
  unfold PCIE_COUNT_PAD
  show size_neg w len &&& 3 = _
  rw [and_three, size_neg_mod_four hw]

theorem get_len_raw (a b : Nat) (hb : b < 256) :
    ((a &&& PCIE_TEARL_LEN1_MASK) <<< CHAR_BIT) ||| b = a % 4 * 256 + b := by
  show ((a &&& 3) <<< 8) ||| b = a % 4 * 256 + b
  rw [and_three, Nat.shiftLeft_eq, Nat.mul_comm (a % 4) (2 ^ 8),
    ← Nat.mul_add_lt_is_or (by simpa using hb) (a % 4)]

theorem get_len_eq {w : Nat} (hw : 16 ≤ w) (h : pcie_header) (hb : h.len2 < 256) :
    PCIE_GET_LEN w h = h.td_ep_attr_r_l1 % 4 * 256 + h.len2 := by
  unfold PCIE_GET_LEN
  rw [get_len_raw _ _ hb]
  have := two_pow_ge hw
  exact to_size_t_of_lt (by omega)

theorem get_pad_eq {w : Nat} (hw : 16 ≤ w) (h : pcie_header) :
    PCIE_GET_PAD w h = h.pcitag / 16 % 4 := by
  unfold PCIE_GET_PAD
  show to_size_t w ((h.pcitag >>> 4) &&& 3) = _
  rw [and_three, Nat.shiftRight_eq_div_pow]
  have := two_pow_ge hw
  exact to_size_t_of_lt (by norm_num; omega)

theorem padded_eq {w n : Nat} (hw : 2 ≤ w) (hn : n + 3 < 2 ^ w) :
    size_add w n (PCIE_COUNT_PAD w n) = n + (4 - n % 4) % 4 := by
  rw [count_pad_eq hw]
  exact size_add_of_lt (by omega)

theorem and_ff (x : Nat) : x &&& 0xff = x % 256 :=
  Nat.and_pow_two_sub_one_eq_mod x 8

theorem shr_eight (x : Nat) : x >>> 8 = x / 256 :=
  Nat.shiftRight_eq_div_pow x 8

theorem attr_mask_then_shift (b : Nat) : (b &&& 0x30) >>> 4 = b / 16 % 4 := by
  have h : (b &&& 0x30) >>> 4 = (b >>> 4) &&& 3 := by
    apply Nat.eq_of_testBit_eq
    intro j
    have h48 : Nat.testBit 0x30 (4 + j) = Nat.testBit 3 j := by
      rw [← Nat.testBit_shiftRight]
      rfl
    rw [Nat.testBit_shiftRight, Nat.testBit_and, Nat.testBit_and, Nat.testBit_shiftRight, h48]
  rw [h, and_three, Nat.shiftRight_eq_div_pow]

theorem count_pad_of_sum_eq {w : Nat} (hw : 2 ≤ w) (a b : Nat) :
    PCIE_COUNT_PAD_of_sum w a b = (b + (4 - a % 4)) % 4 := by
  unfold PCIE_COUNT_PAD_of_sum
  show size_add w (size_neg w a) b &&& 3 = _
  rw [and_three]
  unfold size_add
  rw [Nat.mod_mod_of_dvd _ (four_dvd_two_pow hw)]
  have h := size_neg_mod_four hw a
  omega

theorem decode_template : ∃ d, decode 64 template_header = .ok d ∧
    d.length_dwords = 253 ∧ d.pad_len = 0 ∧ d.vendor_id = VENDOR_ID_DMTF_VDM :=
  ⟨_, rfl, by decide, by decide, by decide⟩

/-! ## Theorems -/

/-- C1: codec-level round trip. For every combined size `n ≤ 4092`, with
`p = PCIE_COUNT_PAD(n)` and `L = (n + p) / 4`, every header whose byte 2 has low two
bits `L >> 8`, whose byte 3 is `L & 0xff` and whose `pcitag` has bits [5:4] equal to
`p` satisfies `PCIE_GET_LEN(header) * 4 - PCIE_GET_PAD(header) = n`, the subtraction
not wrapping. -/
theorem codec_round_trip (w n : Nat) (h : pcie_header) (hw : 16 ≤ w) (hn : n ≤ 4092)
    (hl1 : h.td_ep_attr_r_l1 % 4 = (size_add w n (PCIE_COUNT_PAD w n) / 4) >>> 8)
    (hl2 : h.len2 = (size_add w n (PCIE_COUNT_PAD w n) / 4) &&& 0xff)
    (hp : h.pcitag / 16 % 4 = PCIE_COUNT_PAD w n) :
    PCIE_GET_PAD w h ≤ size_mul w (PCIE_GET_LEN w h) 4 ∧
    size_sub w (size_mul w (PCIE_GET_LEN w h) 4) (PCIE_GET_PAD w h) = n := by
  have hP := two_pow_ge hw
  have hw2 : 2 ≤ w := by omega
  have hs : size_add w n (PCIE_COUNT_PAD w n) = n + (4 - n % 4) % 4 :=
    padded_eq hw2 (by omega)
  rw [hs, shr_eight] at hl1
  rw [hs, and_ff] at hl2
  rw [count_pad_eq hw2] at hp
  have hlen : PCIE_GET_LEN w h = (n + (4 - n % 4) % 4) / 4 := by
    rw [get_len_eq hw h (by omega)]
    omega
  have hpad : PCIE_GET_PAD w h = (4 - n % 4) % 4 := by
    rw [get_pad_eq hw h, hp]
  have hmul : size_mul w (PCIE_GET_LEN w h) 4 = n + (4 - n % 4) % 4 := by
    rw [size_mul_of_lt (by omega), hlen]
    omega
  rw [hmul, hpad]
  refine ⟨by omega, ?_⟩
  rw [size_sub_of_le (by omega) (by omega)]
  omega

theorem codec_round_trip_witness :
    (16 ≤ 64 ∧ 5 ≤ 4092 ∧
     PCIE_COUNT_PAD 64 5 = 3 ∧ size_add 64 5 (PCIE_COUNT_PAD 64 5) / 4 = 2 ∧
     round_trip_header.td_ep_attr_r_l1 % 4
       = (size_add 64 5 (PCIE_COUNT_PAD 64 5) / 4) >>> 8 ∧
     round_trip_header.len2 = (size_add 64 5 (PCIE_COUNT_PAD 64 5) / 4) &&& 0xff ∧
     round_trip_header.pcitag / 16 % 4 = PCIE_COUNT_PAD 64 5) ∧
    (PCIE_GET_PAD 64 round_trip_header
       ≤ size_mul 64 (PCIE_GET_LEN 64 round_trip_header) 4 ∧
     size_sub 64 (size_mul 64 (PCIE_GET_LEN 64 round_trip_header) 4)
       (PCIE_GET_PAD 64 round_trip_header) = 5) :=
  ⟨⟨by decide, by decide, by decide, by decide, by decide, by decide, by decide⟩,
   codec_round_trip 64 5 round_trip_header (by decide) (by decide) (by decide)
     (by decide) (by decide)⟩

/-- C2: for every `size_t` value `len` (the negation taken modulo `2 ^ w`),
`PCIE_COUNT_PAD(len) = ((-len) & 3)` equals `(4 - (len % 4)) % 4` and so lies in
`[0,3]`; `len = 5` gives 3, `len = 8` gives 0 and `len = 0` gives 0. -/
theorem count_pad_formula (w len : Nat) (hw : 2 ≤ w) :
    PCIE_COUNT_PAD w len = (4 - len % 4) % 4 ∧
    PCIE_COUNT_PAD w len ≤ 3 ∧
    PCIE_COUNT_PAD w 5 = 3 ∧ PCIE_COUNT_PAD w 8 = 0 ∧ PCIE_COUNT_PAD w 0 = 0 := by
  refine ⟨count_pad_eq hw len, ?_, ?_, ?_, ?_⟩
  · rw [count_pad_eq hw len]; omega
  · rw [count_pad_eq hw 5]
  · rw [count_pad_eq hw 8]
  · rw [count_pad_eq hw 0]

theorem count_pad_formula_witness :
    2 ≤ 64 ∧
    (PCIE_COUNT_PAD 64 18446744073709551611 = (4 - 18446744073709551611 % 4) % 4 ∧
     PCIE_COUNT_PAD 64 18446744073709551611 ≤ 3 ∧
     PCIE_COUNT_PAD 64 5 = 3 ∧ PCIE_COUNT_PAD 64 8 = 0 ∧ PCIE_COUNT_PAD 64 0 = 0) :=
  ⟨by decide, count_pad_formula 64 18446744073709551611 (by decide)⟩

/-- C3: alignment. For every combined size `n` for which `n + 3` does not overflow
`size_t`, the padded size `n + PCIE_COUNT_PAD(n)` is a multiple of 4, is at least
`n` and below `n + 4`, and is the smallest multiple of 4 not below `n`; the length
in dwords `(n + PCIE_COUNT_PAD(n)) / 4` is the ceiling of `n / 4`, and converted
back to bytes it is a multiple of 4 that is at least `n`. -/
theorem count_pad_alignment (w n : Nat) (hw : 2 ≤ w) (hn : n + 3 < 2 ^ w) :
    size_add w n (PCIE_COUNT_PAD w n) % 4 = 0 ∧
    n ≤ size_add w n (PCIE_COUNT_PAD w n) ∧
    size_add w n (PCIE_COUNT_PAD w n) < n + 4 ∧
    (∀ m, m % 4 = 0 → n ≤ m → size_add w n (PCIE_COUNT_PAD w n) ≤ m) ∧
    size_add w n (PCIE_COUNT_PAD w n) / 4 = (n + 3) / 4 ∧
    (∀ k, size_add w n (PCIE_COUNT_PAD w n) / 4 ≤ k ↔ n ≤ 4 * k) ∧
    size_mul w (size_add w n (PCIE_COUNT_PAD w n) / 4) 4 % 4 = 0 ∧
    n ≤ size_mul w (size_add w n (PCIE_COUNT_PAD w n) / 4) 4 := by
  have hs := padded_eq hw hn
  have hmul : size_mul w (size_add w n (PCIE_COUNT_PAD w n) / 4) 4
      = n + (4 - n % 4) % 4 := by
    rw [size_mul_of_lt (by rw [hs]; omega), hs]
    omega
  rw [hmul, hs]
  refine ⟨by omega, by omega, by omega, ?_, by omega, ?_, by omega, by omega⟩
  · intro m hm hnm
    omega
  · intro k
    omega

theorem count_pad_alignment_witness :
    (2 ≤ 64 ∧ 18446744073709551609 + 3 < 2 ^ 64) ∧
    size_add 64 18446744073709551609 (PCIE_COUNT_PAD 64 18446744073709551609) % 4 = 0 ∧
    18446744073709551609
      ≤ size_add 64 18446744073709551609 (PCIE_COUNT_PAD 64 18446744073709551609) ∧
    size_add 64 18446744073709551609 (PCIE_COUNT_PAD 64 18446744073709551609) / 4
      = (18446744073709551609 + 3) / 4 :=
  ⟨⟨by decide, by decide⟩,
   (count_pad_alignment 64 18446744073709551609 (by decide) (by decide)).1,
   (count_pad_alignment 64 18446744073709551609 (by decide) (by decide)).2.1,
   (count_pad_alignment 64 18446744073709551609 (by decide) (by decide)).2.2.2.2.1⟩

/-- C4: for every header, `PCIE_GET_LEN(header)` equals
`(td_ep_attr_r_l1 mod 4) * 256 + len2`. The result is below 1024, it is the same for
any two headers that agree on bits [1:0] of byte 2 and on byte 3, and for every
`L` in `0..1023` a header carrying `L >> 8` in bits [1:0] of byte 2 and `L & 0xff`
in byte 3 decodes to `L`. -/
theorem get_len_decodes (w : Nat) (h : pcie_header) (hw : 16 ≤ w) (hwf : h.wf) :
    PCIE_GET_LEN w h = (h.td_ep_attr_r_l1 % 4) * 256 + h.len2 ∧
    PCIE_GET_LEN w h < 1024 ∧
    (∀ g : pcie_header, g.wf → g.td_ep_attr_r_l1 % 4 = h.td_ep_attr_r_l1 % 4 →
      g.len2 = h.len2 → PCIE_GET_LEN w g = PCIE_GET_LEN w h) ∧
    (∀ L, L < 1024 → h.td_ep_attr_r_l1 % 4 = L >>> 8 → h.len2 = L &&& 0xff →
      PCIE_GET_LEN w h = L) := by
  have hb : h.len2 < 256 := hwf.2.2.2.1
  have heq := get_len_eq hw h hb
  refine ⟨heq, by omega, ?_, ?_⟩
  · intro g hg h1 h2
    rw [heq, get_len_eq hw g hg.2.2.2.1, h1, h2]
  · intro L hL h1 h2
    rw [shr_eight] at h1
    rw [and_ff] at h2
    omega

theorem get_len_decodes_witness :
    (16 ≤ 64 ∧ long_header.wf) ∧
    PCIE_GET_LEN 64 long_header = (long_header.td_ep_attr_r_l1 % 4) * 256 + long_header.len2 ∧
    PCIE_GET_LEN 64 long_header < 1024 ∧
    PCIE_GET_LEN 64 long_header = 0x234 :=
  ⟨⟨by decide, by decide⟩,
   (get_len_decodes 64 long_header (by decide) (by decide)).1,
   (get_len_decodes 64 long_header (by decide) (by decide)).2.1,
   (get_len_decodes 64 long_header (by decide) (by decide)).2.2.2 0x234
     (by decide) (by decide) (by decide)⟩

/-- C5: for every header, `PCIE_GET_PAD(header)` equals `(pcitag / 16) mod 4`, the
bits [5:4] of byte 6. The result lies in `[0,3]`, it does not depend on the
reserved bits [7:6] nor on the code bits [3:0], and for every `p` in `0..3` a
`pcitag` built as `(p << PCIE_PCITAG_PADLEN_SHIFT) | PCIE_PCITAG_MVC_VALUE` decodes
to `p`. -/
theorem get_pad_decodes (w : Nat) (h : pcie_header) (hw : 16 ≤ w) :
    PCIE_GET_PAD w h = (h.pcitag / 16) % 4 ∧
    PCIE_GET_PAD w h ≤ 3 ∧
    (∀ r p c, p < 4 → c < 16 → h.pcitag = r * 64 + p * 16 + c → PCIE_GET_PAD w h = p) ∧
    (∀ p, p ≤ 3 → h.pcitag = (p <<< PCIE_PCITAG_PADLEN_SHIFT) ||| PCIE_PCITAG_MVC_VALUE →
      PCIE_GET_PAD w h = p) := by
  have heq := get_pad_eq hw h
  refine ⟨heq, by omega, ?_, ?_⟩
  · intro r p c hp hc hpc
    omega
  · intro p hp hpc
    have hz : (p <<< PCIE_PCITAG_PADLEN_SHIFT) ||| PCIE_PCITAG_MVC_VALUE = p * 16 := by
      show (p <<< 4) ||| 0 = p * 16
      rw [Nat.or_zero, Nat.shiftLeft_eq]
    rw [hz] at hpc
    omega

theorem get_pad_decodes_witness :
    16 ≤ 64 ∧
    PCIE_GET_PAD 64 padded_header = (padded_header.pcitag / 16) % 4 ∧
    PCIE_GET_PAD 64 padded_header ≤ 3 ∧
    PCIE_GET_PAD 64 padded_header = 2 ∧
    PCIE_GET_PAD 64 built_header = 3 :=
  ⟨by decide,
   (get_pad_decodes 64 padded_header (by decide)).1,
   (get_pad_decodes 64 padded_header (by decide)).2.1,
   (get_pad_decodes 64 padded_header (by decide)).2.2.1 3 2 9
     (by decide) (by decide) (by decide),
   (get_pad_decodes 64 built_header (by decide)).2.2.2 3 (by decide) rfl⟩

/-- C6, as stated, fails: on a 64-bit `size_t` the combined size
`n = 2 ^ 64 - 1` has `PCIE_COUNT_PAD(n) = 1`, the sum `n + 1` wraps to 0, and the
length in dwords is `0 ≤ 1023` although `n > 4092`. -/
theorem oversize_threshold_wraps :
    18446744073709551615 < 2 ^ 64 ∧
    PCIE_COUNT_PAD 64 18446744073709551615 = 1 ∧
    size_add 64 18446744073709551615 (PCIE_COUNT_PAD 64 18446744073709551615) / 4 = 0 ∧
    ¬ (size_add 64 18446744073709551615 (PCIE_COUNT_PAD 64 18446744073709551615) / 4 ≤ 1023
        ↔ 18446744073709551615 ≤ 4092) := by
  decide

/-- C6, amended: for every combined size `n` for which `n + 3` does not overflow
`size_t`, the length in dwords `(n + PCIE_COUNT_PAD(n)) / 4` is at most 1023 if and
only if `n ≤ 4092`, and in that case a header carrying its 2 high bits in bits
[1:0] of byte 2 and its low byte in byte 3 makes `PCIE_GET_LEN` return it
unchanged; for `n = 4093` the length is 1024, which no header makes `PCIE_GET_LEN`
return. -/
theorem oversize_threshold (w n : Nat) (hw : 16 ≤ w) (hn : n + 3 < 2 ^ w) :
    (size_add w n (PCIE_COUNT_PAD w n) / 4 ≤ 1023 ↔ n ≤ 4092) ∧
    (n ≤ 4092 → ∀ h : pcie_header,
      h.td_ep_attr_r_l1 % 4 = (size_add w n (PCIE_COUNT_PAD w n) / 4) >>> 8 →
      h.len2 = (size_add w n (PCIE_COUNT_PAD w n) / 4) &&& 0xff →
      PCIE_GET_LEN w h = size_add w n (PCIE_COUNT_PAD w n) / 4) ∧
    size_add w 4093 (PCIE_COUNT_PAD w 4093) / 4 = 1024 ∧
    1023 < size_add w 4093 (PCIE_COUNT_PAD w 4093) / 4 ∧
    (∀ h : pcie_header, h.wf →
      PCIE_GET_LEN w h ≠ size_add w 4093 (PCIE_COUNT_PAD w 4093) / 4) := by
  have hP := two_pow_ge hw
  have hw2 : 2 ≤ w := by omega
  have hs := padded_eq hw2 hn
  have hs2 : size_add w 4093 (PCIE_COUNT_PAD w 4093) = 4096 := by
    rw [padded_eq hw2 (by omega)]
  rw [hs, hs2]
  refine ⟨by omega, ?_, by omega, by omega, ?_⟩
  · intro hle h h1 h2
    rw [shr_eight] at h1
    rw [and_ff] at h2
    rw [get_len_eq hw h (by omega)]
    omega
  · intro h hwf
    have hb : h.len2 < 256 := hwf.2.2.2.1
    rw [get_len_eq hw h hb]
    omega

theorem oversize_threshold_witness :
    (16 ≤ 64 ∧ 4092 + 3 < 2 ^ 64) ∧
    (size_add 64 4092 (PCIE_COUNT_PAD 64 4092) / 4 ≤ 1023 ↔ 4092 ≤ 4092) ∧
    PCIE_GET_LEN 64 full_header = size_add 64 4092 (PCIE_COUNT_PAD 64 4092) / 4 ∧
    size_add 64 4093 (PCIE_COUNT_PAD 64 4093) / 4 = 1024 :=
  ⟨⟨by decide, by decide⟩,
   (oversize_threshold 64 4092 (by decide) (by decide)).1,
   (oversize_threshold 64 4092 (by decide) (by decide)).2.1 (by decide) full_header
     (by decide) (by decide),
   (oversize_threshold 64 4092 (by decide) (by decide)).2.2.1⟩

/-- C7: the packed `struct pcie_header` has size 12, so `PCIE_MCTP_HDR_OFFSET` is
12, with `r_fmt_type_rout` at offset 0, `r_trcl_r` at 1, `td_ep_attr_r_l1` at 2,
`len2` at 3, `pci_requester_id` at 4-5, `pcitag` at 6, `message_code` at 7,
`pci_target_id` at 8-9 and `vendor_id` at 10-11; the packed `struct mctp_pcie_hdr`
also has size 12, with `requester` at 4, `tag` at 6, `code` at 7, `target` at 8 and
`vendor` at 10. -/
theorem header_layout :
    packed_sizeof pcie_header_decl = 12 ∧
    PCIE_MCTP_HDR_OFFSET = 12 ∧
    packed_span pcie_header_decl .r_fmt_type_rout = some (0, 0) ∧
    packed_span pcie_header_decl .r_trcl_r = some (1, 1) ∧
    packed_span pcie_header_decl .td_ep_attr_r_l1 = some (2, 2) ∧
    packed_span pcie_header_decl .len2 = some (3, 3) ∧
    packed_span pcie_header_decl .pci_requester_id = some (4, 5) ∧
    packed_span pcie_header_decl .pcitag = some (6, 6) ∧
    packed_span pcie_header_decl .message_code = some (7, 7) ∧
    packed_span pcie_header_decl .pci_target_id = some (8, 9) ∧
    packed_span pcie_header_decl .vendor_id = some (10, 11) ∧
    packed_sizeof mctp_pcie_hdr_decl = 12 ∧
    packed_offsetof mctp_pcie_hdr_decl .requester = some 4 ∧
    packed_offsetof mctp_pcie_hdr_decl .tag = some 6 ∧
    packed_offsetof mctp_pcie_hdr_decl .code = some 7 ∧
    packed_offsetof mctp_pcie_hdr_decl .target = some 8 ∧
    packed_offsetof mctp_pcie_hdr_decl .vendor = some 10 := by
  decide

/-- C8, as stated, fails: `PCIE_MCTP_HDR_OFFSET`, the size of
`struct pcie_header`, is not 8. -/
theorem mctp_hdr_offset_ne_eight : ¬ (PCIE_MCTP_HDR_OFFSET = 8) := by
  decide

/-- C8, amended: the header in front of the MCTP header is exactly 12 bytes and
the MCTP header follows it immediately: `PCIE_MCTP_HDR_OFFSET`, which is
`sizeof(struct pcie_header)`, equals 12, and the object representation of every
header has that many bytes. -/
theorem mctp_hdr_offset_twelve :
    PCIE_MCTP_HDR_OFFSET = packed_sizeof pcie_header_decl ∧
    PCIE_MCTP_HDR_OFFSET = 12 ∧
    ∀ h : pcie_header, h.to_bytes.length = PCIE_MCTP_HDR_OFFSET := by
  refine ⟨rfl, by decide, ?_⟩
  intro h
  rfl

/-- C9: `VENDOR_ID_DMTF_VDM` is `0xB41A`; stored as a little-endian `uint16_t` in
`vendor_id` (offsets 10-11) it puts `0x1A` at offset 10 and `0xB4` at offset 11, and
these two bytes read most significant first are `0x1AB4`, the byte swap of
`VENDOR_ID_DMTF_VDM`. -/
theorem vendor_id_byte_order :
    VENDOR_ID_DMTF_VDM = 0xB41A ∧
    packed_span pcie_header_decl .vendor_id = some (10, 11) ∧
    store_le16 VENDOR_ID_DMTF_VDM = [0x1A, 0xB4] ∧
    (∀ a b c d e f g t : Nat,
      (pcie_header.mk a b c d e f g t VENDOR_ID_DMTF_VDM).to_bytes[10]? = some 0x1A ∧
      (pcie_header.mk a b c d e f g t VENDOR_ID_DMTF_VDM).to_bytes[11]? = some 0xB4) ∧
    read_be16 0x1A 0xB4 = 0x1AB4 ∧
    bswap16 VENDOR_ID_DMTF_VDM = 0x1AB4 := by
  refine ⟨rfl, by decide, by decide, ?_, by decide, by decide⟩
  intro a b c d e f g t
  simp only [pcie_header.to_bytes, store_u8, store_le16, List.cons_append,
    List.nil_append]
  exact ⟨rfl, rfl⟩

/-- C10: `MSG_4DW_HDR = 0x70` has Fmt bits [6:5] = `11b` (the value of
`(MSG_4DW_HDR >> PCIE_FTR_FMT_SHIFT) & PCIE_FTR_FMT_MASK`), Type bits [4:3] = `10b`,
reserved bit 7 clear and routing bits [2:0] = 0 (the value of
`(MSG_4DW_HDR >> PCIE_FTR_ROUTING_SHIFT) & PCIE_FTR_ROUTING_MASK`);
`MSG_CODE_VDM_TYPE_1 = 0x7F`; and `PCIE_PCITAG_MVC_VALUE = 0` fits its 4-bit mask. -/
theorem template_constants :
    MSG_4DW_HDR = 0x70 ∧
    (MSG_4DW_HDR >>> PCIE_FTR_FMT_SHIFT) &&& PCIE_FTR_FMT_MASK = 3 ∧
    (MSG_4DW_HDR.testBit 6 = true ∧ MSG_4DW_HDR.testBit 5 = true) ∧
    (MSG_4DW_HDR.testBit 4 = true ∧ MSG_4DW_HDR.testBit 3 = false) ∧
    MSG_4DW_HDR / 8 % 4 = 2 ∧
    MSG_4DW_HDR.testBit 7 = false ∧
    (MSG_4DW_HDR.testBit 2 = false ∧ MSG_4DW_HDR.testBit 1 = false ∧
      MSG_4DW_HDR.testBit 0 = false) ∧
    (MSG_4DW_HDR >>> PCIE_FTR_ROUTING_SHIFT) &&& PCIE_FTR_ROUTING_MASK = 0 ∧
    MSG_4DW_HDR < 256 ∧
    MSG_CODE_VDM_TYPE_1 = 0x7F ∧
    PCIE_PCITAG_MVC_VALUE = 0 ∧
    PCIE_PCITAG_MVC_MASK = 2 ^ 4 - 1 ∧
    PCIE_PCITAG_MVC_VALUE &&& PCIE_PCITAG_MVC_MASK = PCIE_PCITAG_MVC_VALUE := by
  decide

/-- C11: rejection. For every received header whose vendor-id field holds a value
other than `VENDOR_ID_DMTF_VDM`, the decoder fails with `MalformedFrame` and never
returns a descriptor, whatever the other fields hold; when all other fixed fields
are valid the error identifies the vendor id. -/
theorem decode_rejects_vendor_id (w : Nat) (h : pcie_header)
    (hv : h.vendor_id ≠ VENDOR_ID_DMTF_VDM) :
    (∃ f, decode w h = .error (.MalformedFrame f)) ∧
    (∀ d, decode w h ≠ .ok d) ∧
    (h.r_fmt_type_rout / 8 % 16 = MSG_4DW_HDR / 8 % 16 →
      h.td_ep_attr_r_l1 / 16 % 4 = MCTP_PCIE_VDM_ATTR / 16 % 4 →
      h.td_ep_attr_r_l1 / 64 % 4 = 0 →
      h.message_code = MSG_CODE_VDM_TYPE_1 →
      decode w h = .error (.MalformedFrame .vendor_id)) := by
  refine ⟨?_, ?_, ?_⟩
  · unfold decode
    split_ifs
    · exact ⟨_, rfl⟩
    · exact ⟨_, rfl⟩
    · exact ⟨_, rfl⟩
    · exact ⟨_, rfl⟩
    · exact ⟨_, rfl⟩
  · intro d
    unfold decode
    split_ifs <;> simp
  · intro h1 h2 h3 h4
    unfold decode
    simp [h1, h2, h3, h4, hv]

theorem decode_rejects_vendor_id_witness :
    wrong_vendor_header.vendor_id ≠ VENDOR_ID_DMTF_VDM ∧
    decode 64 wrong_vendor_header = .error (.MalformedFrame .vendor_id) :=
  ⟨by decide,
   (decode_rejects_vendor_id 64 wrong_vendor_header (by decide)).2.2
     (by decide) (by decide) (by decide) (by decide)⟩

/-- C12: the type field located by `PCIE_FTR_TYPE_SHIFT` and `PCIE_FTR_TYPE_MASK`
is not bits [4:3]: `PCIE_FTR_TYPE_MASK << PCIE_FTR_TYPE_SHIFT` is `0x03`, not
`0x18`, it lies inside the routing bits, and on `MSG_4DW_HDR` the pair yields 0
while bits [4:3] of `MSG_4DW_HDR` hold `10b`. -/
theorem ftr_type_pair_selects_low_bits :
    PCIE_FTR_TYPE_MASK <<< PCIE_FTR_TYPE_SHIFT = 0x03 ∧
    PCIE_FTR_TYPE_MASK <<< PCIE_FTR_TYPE_SHIFT ≠ 0x18 ∧
    (PCIE_FTR_TYPE_MASK <<< PCIE_FTR_TYPE_SHIFT) &&&
      (PCIE_FTR_ROUTING_MASK <<< PCIE_FTR_ROUTING_SHIFT) = 0x03 ∧
    (MSG_4DW_HDR >>> PCIE_FTR_TYPE_SHIFT) &&& PCIE_FTR_TYPE_MASK = 0 ∧
    (MSG_4DW_HDR >>> PCIE_FTR_TYPE_SHIFT) &&& PCIE_FTR_TYPE_MASK ≠ 2 ∧
    MSG_4DW_HDR / 8 % 4 = 2 := by
  decide

/-- C13: the pad macro invoked on the unparenthesised sum `a + b` does not yield
the padding of the combined size: for `a = 1`, `b = 1` the expansion
`((-a + b) & 3)` is 0, while the padding of the combined size 2 is 2. -/
theorem count_pad_of_sum_diverges :
    PCIE_COUNT_PAD_of_sum 64 1 1 = 0 ∧
    (4 - (1 + 1) % 4) % 4 = 2 ∧
    PCIE_COUNT_PAD 64 (size_add 64 1 1) = 2 ∧
    PCIE_COUNT_PAD_of_sum 64 1 1 ≠ (4 - (1 + 1) % 4) % 4 := by
  decide

/-- C14: the Attr pair does not follow the shift-then-mask convention of the other
SHIFT/MASK pairs: on the byte `0x10` the expression
`(b >> PCIE_TEARL_ATTR_SHIFT) & PCIE_TEARL_ATTR_MASK` yields 0 although bits [5:4]
hold `01b`, and `PCIE_TEARL_ATTR_MASK << PCIE_TEARL_ATTR_SHIFT` is `0x300`, outside
the byte, because `PCIE_TEARL_ATTR_MASK` is `0x30` where the sibling masks
(`PCIE_PCITAG_PADLEN_MASK`, `PCIE_TEARL_LEN1_MASK`) are right-aligned. -/
theorem attr_shift_then_mask_fails :
    (0x10 >>> PCIE_TEARL_ATTR_SHIFT) &&& PCIE_TEARL_ATTR_MASK = 0 ∧
    0x10 / 16 % 4 = 1 ∧
    ¬ ((0x10 >>> PCIE_TEARL_ATTR_SHIFT) &&& PCIE_TEARL_ATTR_MASK = 0x10 / 16 % 4) ∧
    PCIE_TEARL_ATTR_MASK <<< PCIE_TEARL_ATTR_SHIFT = 0x300 ∧
    ¬ (PCIE_TEARL_ATTR_MASK <<< PCIE_TEARL_ATTR_SHIFT = 0x30) ∧
    (0x30 >>> PCIE_PCITAG_PADLEN_SHIFT) &&& PCIE_PCITAG_PADLEN_MASK = 3 := by
  decide

/-- The Attr pair applied mask first: for every byte `b`,
`(b & PCIE_TEARL_ATTR_MASK) >> PCIE_TEARL_ATTR_SHIFT` equals the 2-bit value held in
bits [5:4] of `b`, so `b = 0x10` yields `01b`; `PCIE_TEARL_ATTR_MASK` is `0x30`, a
mask already in position, which lies inside the byte and is disjoint from the TD,
EP and LEN1 bit ranges. -/
theorem attr_mask_then_shift_decodes :
    (∀ b : Nat, (b &&& PCIE_TEARL_ATTR_MASK) >>> PCIE_TEARL_ATTR_SHIFT = b / 16 % 4) ∧
    (0x10 &&& PCIE_TEARL_ATTR_MASK) >>> PCIE_TEARL_ATTR_SHIFT = 1 ∧
    PCIE_TEARL_ATTR_MASK = 0x30 ∧
    PCIE_TEARL_ATTR_MASK < 256 ∧
    PCIE_TEARL_ATTR_MASK &&& (PCIE_TEARL_MASK_TD <<< PCIE_TEARL_SHIFT_TD) = 0 ∧
    PCIE_TEARL_ATTR_MASK &&& PCIE_TEARL_FLAG_TD = 0 ∧
    PCIE_TEARL_ATTR_MASK &&& (PCIE_TEARL_MASK_EP <<< PCIE_TEARL_SHIFT_EP) = 0 ∧
    PCIE_TEARL_ATTR_MASK &&& PCIE_TEARL_FLAG_EP = 0 ∧
    PCIE_TEARL_ATTR_MASK &&& (PCIE_TEARL_LEN1_MASK <<< PCIE_TEARL_LEN1_SHIFT) = 0 := by
  refine ⟨?_, by decide, by decide, by decide, by decide, by decide, by decide,
    by decide, by decide⟩
  intro b
  exact attr_mask_then_shift b

/-- C15: the two header views agree on the attribute template. On a little-endian
host, `MCTP_PCIE_VDM_ATTR` stored in `mbz_attr_length` of `struct mctp_pcie_hdr`
(bytes 2-3) gives byte 2 = `0x10` and byte 3 = `0x00`; read through
`struct pcie_header` these give Attr bits [5:4] of `td_ep_attr_r_l1` = `01b` (the
value of `(0x10 & PCIE_TEARL_ATTR_MASK) >> PCIE_TEARL_ATTR_SHIFT`), TD = 0, EP = 0
and `PCIE_GET_LEN` = 0. -/
theorem header_views_agree_on_attr (a b r t c g v : Nat) :
    packed_span mctp_pcie_hdr_decl .mbz_attr_length = some (2, 3) ∧
    packed_span pcie_header_decl .td_ep_attr_r_l1 = some (2, 2) ∧
    packed_span pcie_header_decl .len2 = some (3, 3) ∧
    MCTP_PCIE_VDM_ATTR = 0x0010 ∧
    (mctp_pcie_hdr.mk a b MCTP_PCIE_VDM_ATTR r t c g v).to_bytes[2]? = some 0x10 ∧
    (mctp_pcie_hdr.mk a b MCTP_PCIE_VDM_ATTR r t c g v).to_bytes[3]? = some 0x00 ∧
    ∃ h : pcie_header,
      pcie_header.of_bytes (mctp_pcie_hdr.mk a b MCTP_PCIE_VDM_ATTR r t c g v).to_bytes
        = some h ∧
      h.td_ep_attr_r_l1 = 0x10 ∧
      h.len2 = 0x00 ∧
      (h.td_ep_attr_r_l1 &&& PCIE_TEARL_ATTR_MASK) >>> PCIE_TEARL_ATTR_SHIFT = 1 ∧
      h.td_ep_attr_r_l1 / 16 % 4 = 1 ∧
      (h.td_ep_attr_r_l1 >>> PCIE_TEARL_SHIFT_TD) &&& PCIE_TEARL_MASK_TD = 0 ∧
      h.td_ep_attr_r_l1 &&& PCIE_TEARL_FLAG_TD = 0 ∧
      (h.td_ep_attr_r_l1 >>> PCIE_TEARL_SHIFT_EP) &&& PCIE_TEARL_MASK_EP = 0 ∧
      h.td_ep_attr_r_l1 &&& PCIE_TEARL_FLAG_EP = 0 ∧
      ∀ w, PCIE_GET_LEN w h = 0 := by
  have e1 : MCTP_PCIE_VDM_ATTR % 256 = 0x10 := by decide
  have e2 : MCTP_PCIE_VDM_ATTR / 256 % 256 = 0x00 := by decide
  simp only [mctp_pcie_hdr.to_bytes, store_u8, store_le16, List.cons_append,
    List.nil_append, e1, e2]
  refine ⟨by decide, by decide, by decide, rfl, rfl, rfl, ⟨_, rfl, ?_⟩⟩
  dsimp only
  refine ⟨rfl, rfl, by decide, by decide, by decide, by decide, by decide,
    by decide, ?_⟩
  intro w
  have e3 : ((0x10 &&& PCIE_TEARL_LEN1_MASK) <<< CHAR_BIT) ||| 0x00 = 0 := by decide
  unfold PCIE_GET_LEN
  dsimp only
  rw [e3]
  exact Nat.zero_mod _

/-- C16, as stated, fails: on a 64-bit `size_t` the combined size `n = 2 ^ 64 - 12`
has `PCIE_COUNT_PAD(n) = 0`, the frame size `PCIE_MCTP_HDR_OFFSET + n` wraps to 0,
which is within the default buffer, and yet the length in dwords is far above
253. -/
theorem default_buffer_length_wraps :
    18446744073709551604 < 2 ^ 64 ∧
    size_add 64 (size_add 64 PCIE_MCTP_HDR_OFFSET 18446744073709551604)
      (PCIE_COUNT_PAD 64 18446744073709551604) = 0 ∧
    size_add 64 (size_add 64 PCIE_MCTP_HDR_OFFSET 18446744073709551604)
      (PCIE_COUNT_PAD 64 18446744073709551604) ≤ MCTP_ASTPCIE_BINDING_DEFAULT_BUFFER ∧
    ¬ (size_add 64 18446744073709551604 (PCIE_COUNT_PAD 64 18446744073709551604) / 4
        ≤ 253) := by
  decide

/-- C16, amended: for every combined size `n` for which
`PCIE_MCTP_HDR_OFFSET + n + 3` does not overflow `size_t` and whose whole frame
`PCIE_MCTP_HDR_OFFSET + n + PCIE_COUNT_PAD(n)` is at most
`MCTP_ASTPCIE_BINDING_DEFAULT_BUFFER` bytes, the length in dwords
`(n + PCIE_COUNT_PAD(n)) / 4` is at most 253, so it fits in `len2` alone with the two
high length bits zero, and `PCIE_GET_LEN` of the encoded header returns it. -/
theorem default_buffer_length_fits (w n : Nat) (hw : 16 ≤ w)
    (hn : PCIE_MCTP_HDR_OFFSET + n + 3 < 2 ^ w)
    (hfit : size_add w (size_add w PCIE_MCTP_HDR_OFFSET n) (PCIE_COUNT_PAD w n)
      ≤ MCTP_ASTPCIE_BINDING_DEFAULT_BUFFER) :
    size_add w n (PCIE_COUNT_PAD w n) / 4 ≤ 253 ∧
    (size_add w n (PCIE_COUNT_PAD w n) / 4) &&& 0xff
      = size_add w n (PCIE_COUNT_PAD w n) / 4 ∧
    (size_add w n (PCIE_COUNT_PAD w n) / 4) >>> 8 = 0 ∧
    (∀ h : pcie_header,
      h.td_ep_attr_r_l1 % 4 = (size_add w n (PCIE_COUNT_PAD w n) / 4) >>> 8 →
      h.len2 = (size_add w n (PCIE_COUNT_PAD w n) / 4) &&& 0xff →
      h.len2 = size_add w n (PCIE_COUNT_PAD w n) / 4 ∧
      h.td_ep_attr_r_l1 &&& PCIE_TEARL_LEN1_MASK = 0 ∧
      PCIE_GET_LEN w h = size_add w n (PCIE_COUNT_PAD w n) / 4) := by
  have h12 : PCIE_MCTP_HDR_OFFSET = 12 := by decide
  have hmax : MCTP_ASTPCIE_BINDING_DEFAULT_BUFFER = 1024 := rfl
  have hw2 : 2 ≤ w := by omega
  rw [h12] at hn hfit
  rw [hmax] at hfit
  have hs : size_add w n (PCIE_COUNT_PAD w n) = n + (4 - n % 4) % 4 :=
    padded_eq hw2 (by omega)
  have hpad := count_pad_eq hw2 n
  rw [size_add_of_lt (show 12 + n < 2 ^ w by omega), hpad,
    size_add_of_lt (show 12 + n + (4 - n % 4) % 4 < 2 ^ w by omega)] at hfit
  rw [hs, and_ff, shr_eight]
  refine ⟨by omega, by omega, by omega, ?_⟩
  intro h h1 h2
  have hmask : h.td_ep_attr_r_l1 &&& PCIE_TEARL_LEN1_MASK = h.td_ep_attr_r_l1 % 4 :=
    and_three _
  rw [hmask, get_len_eq hw h (by omega)]
  omega

theorem default_buffer_length_fits_witness :
    (16 ≤ 64 ∧ PCIE_MCTP_HDR_OFFSET + 1009 + 3 < 2 ^ 64 ∧
     size_add 64 (size_add 64 PCIE_MCTP_HDR_OFFSET 1009) (PCIE_COUNT_PAD 64 1009)
       ≤ MCTP_ASTPCIE_BINDING_DEFAULT_BUFFER) ∧
    size_add 64 1009 (PCIE_COUNT_PAD 64 1009) / 4 ≤ 253 ∧
    (template_header.len2 = size_add 64 1009 (PCIE_COUNT_PAD 64 1009) / 4 ∧
     template_header.td_ep_attr_r_l1 &&& PCIE_TEARL_LEN1_MASK = 0 ∧
     PCIE_GET_LEN 64 template_header = size_add 64 1009 (PCIE_COUNT_PAD 64 1009) / 4) :=
  ⟨⟨by decide, by decide, by decide⟩,
   (default_buffer_length_fits 64 1009 (by decide) (by decide) (by decide)).1,
   (default_buffer_length_fits 64 1009 (by decide) (by decide) (by decide)).2.2.2
     template_header (by decide) (by decide)⟩

end Astpcie
